import Mathlib

/-!
Shallow embedding of the session-aware request gateway of
`src/frontend/src/api/client.js` (the axios response interceptor with the
`isRefreshing` flag and `failedQueue`), together with theorems settling the
frozen claims about it.

Execution model.  The JavaScript runtime is a single-threaded event loop:
when a network response arrives (a macrotask), the interceptor handler for
that response runs, and the whole cascade of promise continuations it
triggers (microtasks) drains to completion before the next network response
can be observed.  We therefore model an execution as a fold of a `step`
function over a list of response `Event`s: each `step` is exactly the code
that runs between two suspension points of the event loop.  Page-level
callers' outstanding requests are modelled as in flight from the start
(`initSys`); since a request interacts with the shared state only when its
response is handled, and response events may arrive in any order, this
covers all interleavings of the cooperative scheduler.
-/

/-- A request description as carried by an axios config object: method, url,
body, headers, plus the `_retry` marker the interceptor mutates on the
triggering request (client.js line 54). -/
structure Config where
  method : String
  url : String
  body : String
  headers : List (String × String)
  retry : Bool
deriving DecidableEq, Repr

/-- Substring test on character lists, auxiliary for `urlHasRefresh`. -/
def startsWithL : List Char → List Char → Bool
  | [], _ => true
  | _ :: _, [] => false
  | p :: ps, c :: cs => p == c && startsWithL ps cs

/-- JavaScript `String.prototype.includes`, on character lists. -/
def containsSub (pat : List Char) : List Char → Bool
  | [] => pat.isEmpty
  | c :: cs => startsWithL pat (c :: cs) || containsSub pat cs

/-- The check `originalRequest.url?.includes('/auth/refresh')` of
client.js line 34. -/
def urlHasRefresh (u : String) : Bool :=
  containsSub "/auth/refresh".toList u.toList

/-- An axios error: `status = none` models a network-level error with no
response; `payload` stands for the rest of the error object, carried so we
can state that errors are surfaced unmodified. -/
structure ErrInfo where
  status : Option Nat
  payload : Nat
deriving DecidableEq, Repr

/-- The check `error.response?.status === 401` of client.js line 33. -/
def is401 (e : ErrInfo) : Bool := e.status == some 401

/-- A server response: success with a payload, or an error. -/
inductive Resp where
  | ok (payload : Nat)
  | err (e : ErrInfo)
deriving DecidableEq, Repr

/-- Whether a response is a success. -/
def Resp.isOk : Resp → Bool
  | .ok _ => true
  | .err _ => false

/-- What kind of in-flight request a pending network exchange is:
`caller c cfg` is a request whose response runs the interceptor and whose
result ultimately belongs to caller `c` (an original page-level request or
a replay); `refresh c cfg` is the `POST /auth/refresh` issued at client.js
line 58, awaited by the triggering handler for caller `c` whose (mutated,
`_retry = true`) config is `cfg`. -/
inductive ReqKind where
  | caller (c : Nat) (cfg : Config)
  | refresh (c : Nat) (cfg : Config)
deriving DecidableEq, Repr

/-- Whether an in-flight request is the refresh exchange. -/
def ReqKind.isRefreshExch : ReqKind → Bool
  | .caller _ _ => false
  | .refresh _ _ => true

/-- The config carried by an in-flight request. -/
def ReqKind.cfg : ReqKind → Config
  | .caller _ cfg => cfg
  | .refresh _ cfg => cfg

/-- One entry of `failedQueue` (client.js line 44): the promise identity
`pid`, the caller whose continuations `resolve`/`reject` settle, and the
`originalRequest` config captured by the closure at line 47. -/
structure Pending where
  pid : Nat
  caller : Nat
  cfg : Config
deriving DecidableEq, Repr

/-- A result delivered to a caller: the resolved response payload, or the
rejection error. -/
inductive Outcome where
  | ok (payload : Nat)
  | fail (e : ErrInfo)
deriving DecidableEq, Repr

/-- The whole interleaved-execution state: the two shared mutables of
client.js (`isRefreshing`, `failedQueue`), the set of in-flight network
exchanges, and instrumentation logs (requests sent, outcomes delivered,
promise settlements, number of refresh exchanges sent, number of
`window.location.href = '/auth/sign-in'` assignments). `nextId` is a
fresh-identifier counter for request ids and promise ids. -/
structure Sys where
  isRefreshing : Bool
  failedQueue : List Pending
  inFlight : List (Nat × ReqKind)
  sentLog : List (Nat × ReqKind)
  outcomes : List (Nat × Outcome)
  settled : List (Nat × Bool)
  refreshesSent : Nat
  redirects : Nat
  nextId : Nat
deriving DecidableEq, Repr

/-- Rejections delivered by `processQueue` (client.js lines 17-23) when
called with an error: each queued promise rejects, and the queued caller's
`.catch` (lines 49-51) surfaces that same error to the caller. -/
def rejectAll (q : List Pending) (e : ErrInfo) : List (Nat × Outcome) :=
  q.map fun p => (p.caller, Outcome.fail e)

/-- The settlement log entries produced by one `processQueue` run: every
queued promise settles, in queue order, resolved (`true`) or rejected
(`false`). -/
def settleFlags (q : List Pending) (b : Bool) : List (Nat × Bool) :=
  q.map fun p => (p.pid, b)

/-- The replays sent when `processQueue` resolves the queue (client.js
line 21): each queued continuation (line 47) re-issues
`apiClient(originalRequest)` with the captured config, verbatim.  Fresh
request ids are allocated from `base`. -/
def resolveSends : Nat → List Pending → List (Nat × ReqKind)
  | _, [] => []
  | base, p :: ps => (base, ReqKind.caller p.caller p.cfg) :: resolveSends (base + 1) ps

/-- The response interceptor's error handler (client.js lines 30-73) run on
a response for an in-flight `caller` request of caller `c` with config
`cfg`; the success interceptor (line 29) just forwards the response. -/
def handleCaller (s : Sys) (c : Nat) (cfg : Config) (r : Resp) : Sys :=
  match r with
  | .ok p => { s with outcomes := s.outcomes ++ [(c, Outcome.ok p)] }
  | .err e =>
    if is401 e && !cfg.retry then
      if urlHasRefresh cfg.url then
        -- lines 34-40: invalid refresh token path
        { s with isRefreshing := false
                 failedQueue := []
                 settled := s.settled ++ settleFlags s.failedQueue false
                 outcomes := s.outcomes ++ rejectAll s.failedQueue e ++ [(c, Outcome.fail e)]
                 redirects := s.redirects + 1 }
      else if s.isRefreshing then
        -- lines 42-52: enqueue behind the in-flight refresh
        { s with failedQueue := s.failedQueue ++ [⟨s.nextId, c, cfg⟩]
                 nextId := s.nextId + 1 }
      else
        -- lines 54-58: mark retried, raise the flag, issue the refresh
        { s with isRefreshing := true
                 refreshesSent := s.refreshesSent + 1
                 inFlight := s.inFlight ++ [(s.nextId, ReqKind.refresh c { cfg with retry := true })]
                 sentLog := s.sentLog ++ [(s.nextId, ReqKind.refresh c { cfg with retry := true })]
                 nextId := s.nextId + 1 }
    else
      -- line 72 (non-401 or already-retried): pass the error through
      { s with outcomes := s.outcomes ++ [(c, Outcome.fail e)] }

/-- The cascade run when the awaited `apiClient.post('/auth/refresh')`
resolves for the triggering handler of caller `c` (whose marked config is
`cfg`).  On success: lines 59-62.  On failure: for a 401 the refresh
request's own interceptor invocation (lines 34-39) runs first in the same
microtask drain — flag down, `processQueue(error)`, first redirect — and the
rejection then reaches the `catch` (lines 63-68), whose `processQueue` now
iterates an already-empty queue and whose redirect fires a second time; for
a non-401 failure the interceptor passes the error through (line 72) and
only the `catch` runs.  Both failure paths settle the queue once with
rejection; the 401 path emits one extra redirect. -/
def handleRefresh (s : Sys) (c : Nat) (cfg : Config) (r : Resp) : Sys :=
  match r with
  | .ok _ =>
    let sends := resolveSends s.nextId s.failedQueue
    let n := s.nextId + s.failedQueue.length
    { s with isRefreshing := false
             failedQueue := []
             settled := s.settled ++ settleFlags s.failedQueue true
             inFlight := s.inFlight ++ sends ++ [(n, ReqKind.caller c cfg)]
             sentLog := s.sentLog ++ sends ++ [(n, ReqKind.caller c cfg)]
             nextId := n + 1 }
  | .err e =>
    { s with isRefreshing := false
             failedQueue := []
             settled := s.settled ++ settleFlags s.failedQueue false
             outcomes := s.outcomes ++ rejectAll s.failedQueue e ++ [(c, Outcome.fail e)]
             redirects := s.redirects + 1 + (if is401 e then 1 else 0) }

/-- First in-flight entry with the given request id, if any. -/
def lookupReq : List (Nat × ReqKind) → Nat → Option ReqKind
  | [], _ => none
  | (r, k) :: rest, rid => if r = rid then some k else lookupReq rest rid

/-- Remove the first in-flight entry with the given request id. -/
def removeReq : List (Nat × ReqKind) → Nat → List (Nat × ReqKind)
  | [], _ => []
  | (r, k) :: rest, rid => if r = rid then rest else (r, k) :: removeReq rest rid

/-- A scheduler event: the network response for in-flight request `rid`
arrives. -/
structure Event where
  rid : Nat
  resp : Resp
deriving DecidableEq, Repr

/-- One atomic turn of the event loop: consume the response for `ev.rid`
(if that request is in flight; a stale id is a no-op) and run the complete
handler cascade it triggers. -/
def step (s : Sys) (ev : Event) : Sys :=
  match lookupReq s.inFlight ev.rid with
  | none => s
  | some (.caller c cfg) =>
      handleCaller { s with inFlight := removeReq s.inFlight ev.rid } c cfg ev.resp
  | some (.refresh c cfg) =>
      handleRefresh { s with inFlight := removeReq s.inFlight ev.rid } c cfg ev.resp

/-- An interleaved execution: the event-loop turns, folded in arrival
order. -/
def run (s : Sys) (evs : List Event) : Sys := evs.foldl step s

/-- A page-level caller issues a request through `apiClient`. -/
def sendReq (s : Sys) (c : Nat) (cfg : Config) : Sys :=
  { s with inFlight := s.inFlight ++ [(s.nextId, ReqKind.caller c cfg)]
           sentLog := s.sentLog ++ [(s.nextId, ReqKind.caller c cfg)]
           nextId := s.nextId + 1 }

/-- Initial state: the module-level `isRefreshing = false`, `failedQueue =
[]` (client.js lines 13-14), with the callers' outstanding requests in
flight. -/
def initSys (reqs : List (Nat × Config)) : Sys :=
  reqs.foldl (fun s rc => sendReq s rc.1 rc.2) ⟨false, [], [], [], [], [], 0, 0, 0⟩

/-- The repository's page-level callers (the `auth.js`, `users`, and
`expenses.js` wrappers) never target the `/auth/refresh` endpoint — the
`authAPI.refresh` wrapper has no caller — so no initial request's url
contains `/auth/refresh`. -/
def GoodReqs (reqs : List (Nat × Config)) : Prop :=
  ∀ rc ∈ reqs, urlHasRefresh rc.2.url = false

/-- States arising in some interleaved execution of the application. -/
def Reachable (s : Sys) : Prop :=
  ∃ reqs evs, GoodReqs reqs ∧ s = run (initSys reqs) evs

/-- Number of refresh exchanges currently in flight. -/
def countRefresh : List (Nat × ReqKind) → Nat
  | [] => 0
  | x :: rest => (if x.2.isRefreshExch then 1 else 0) + countRefresh rest

/-- All promise identifiers alive in a state: queued ones and settled
ones. -/
def pidsOf (s : Sys) : List Nat :=
  s.failedQueue.map Pending.pid ++ s.settled.map Prod.fst

/-- The inductive invariant of the gateway: the refresh flag tracks the
in-flight refresh exchange exactly; the queue is empty whenever the flag is
down; in-flight configs never target the refresh endpoint (the repository
has no such caller) and the refresh exchange's awaiter config is marked
retried; queued configs never target the refresh endpoint; and promise
identifiers are distinct and below the allocation counter. -/
def GateInv (s : Sys) : Prop :=
  (s.isRefreshing = false → countRefresh s.inFlight = 0 ∧ s.failedQueue = []) ∧
  (s.isRefreshing = true → countRefresh s.inFlight = 1) ∧
  (∀ x ∈ s.inFlight, urlHasRefresh x.2.cfg.url = false) ∧
  (∀ x ∈ s.inFlight, x.2.isRefreshExch = true → x.2.cfg.retry = true) ∧
  (∀ p ∈ s.failedQueue, urlHasRefresh p.cfg.url = false) ∧
  (pidsOf s).Nodup ∧
  (∀ i ∈ pidsOf s, i < s.nextId)

lemma step_none (s : Sys) (ev : Event) (hl : lookupReq s.inFlight ev.rid = none) :
    step s ev = s := by
  unfold step; rw [hl]

lemma step_callerEq (s : Sys) (ev : Event) (c : Nat) (cfg : Config)
    (hl : lookupReq s.inFlight ev.rid = some (ReqKind.caller c cfg)) :
    step s ev = handleCaller { s with inFlight := removeReq s.inFlight ev.rid } c cfg ev.resp := by
  unfold step; rw [hl]

lemma step_refreshEq (s : Sys) (ev : Event) (c : Nat) (cfg : Config)
    (hl : lookupReq s.inFlight ev.rid = some (ReqKind.refresh c cfg)) :
    step s ev = handleRefresh { s with inFlight := removeReq s.inFlight ev.rid } c cfg ev.resp := by
  unfold step; rw [hl]

lemma handleCaller_ok (s : Sys) (c : Nat) (cfg : Config) (p : Nat) :
    handleCaller s c cfg (Resp.ok p) = { s with outcomes := s.outcomes ++ [(c, Outcome.ok p)] } := rfl

lemma handleCaller_pass (s : Sys) (c : Nat) (cfg : Config) (e : ErrInfo)
    (h : (is401 e && !cfg.retry) = false) :
    handleCaller s c cfg (Resp.err e) = { s with outcomes := s.outcomes ++ [(c, Outcome.fail e)] } := by
  simp [handleCaller, h]

lemma handleCaller_enqueue (s : Sys) (c : Nat) (cfg : Config) (e : ErrInfo)
    (h1 : is401 e = true) (h2 : cfg.retry = false) (h3 : urlHasRefresh cfg.url = false)
    (h4 : s.isRefreshing = true) :
    handleCaller s c cfg (Resp.err e) =
      { s with failedQueue := s.failedQueue ++ [⟨s.nextId, c, cfg⟩]
               nextId := s.nextId + 1 } := by
  simp [handleCaller, h1, h2, h3, h4]

lemma handleCaller_trigger (s : Sys) (c : Nat) (cfg : Config) (e : ErrInfo)
    (h1 : is401 e = true) (h2 : cfg.retry = false) (h3 : urlHasRefresh cfg.url = false)
    (h4 : s.isRefreshing = false) :
    handleCaller s c cfg (Resp.err e) =
      { s with isRefreshing := true
               refreshesSent := s.refreshesSent + 1
               inFlight := s.inFlight ++ [(s.nextId, ReqKind.refresh c { cfg with retry := true })]
               sentLog := s.sentLog ++ [(s.nextId, ReqKind.refresh c { cfg with retry := true })]
               nextId := s.nextId + 1 } := by
  simp [handleCaller, h1, h2, h3, h4]

lemma handleCaller_refreshUrl (s : Sys) (c : Nat) (cfg : Config) (e : ErrInfo)
    (h1 : is401 e = true) (h2 : cfg.retry = false) (h3 : urlHasRefresh cfg.url = true) :
    handleCaller s c cfg (Resp.err e) =
      { s with isRefreshing := false
               failedQueue := []
               settled := s.settled ++ settleFlags s.failedQueue false
               outcomes := s.outcomes ++ rejectAll s.failedQueue e ++ [(c, Outcome.fail e)]
               redirects := s.redirects + 1 } := by
  simp [handleCaller, h1, h2, h3]

lemma handleRefresh_ok (s : Sys) (c : Nat) (cfg : Config) (p : Nat) :
    handleRefresh s c cfg (Resp.ok p) =
      { s with isRefreshing := false
               failedQueue := []
               settled := s.settled ++ settleFlags s.failedQueue true
               inFlight := s.inFlight ++ resolveSends s.nextId s.failedQueue ++
                 [(s.nextId + s.failedQueue.length, ReqKind.caller c cfg)]
               sentLog := s.sentLog ++ resolveSends s.nextId s.failedQueue ++
                 [(s.nextId + s.failedQueue.length, ReqKind.caller c cfg)]
               nextId := s.nextId + s.failedQueue.length + 1 } := by
  simp [handleRefresh]

lemma handleRefresh_err (s : Sys) (c : Nat) (cfg : Config) (e : ErrInfo) :
    handleRefresh s c cfg (Resp.err e) =
      { s with isRefreshing := false
               failedQueue := []
               settled := s.settled ++ settleFlags s.failedQueue false
               outcomes := s.outcomes ++ rejectAll s.failedQueue e ++ [(c, Outcome.fail e)]
               redirects := s.redirects + 1 + (if is401 e then 1 else 0) } := rfl

lemma lookupReq_mem {l : List (Nat × ReqKind)} {rid : Nat} {k : ReqKind}
    (h : lookupReq l rid = some k) : ∃ r, (r, k) ∈ l := by
  induction l with
  | nil => simp [lookupReq] at h
  | cons x xs ih =>
    obtain ⟨r, k'⟩ := x
    by_cases hr : r = rid
    · simp [lookupReq, hr] at h
      exact ⟨r, by simp [h]⟩
    · simp [lookupReq, hr] at h
      obtain ⟨r2, hm⟩ := ih h
      exact ⟨r2, List.mem_cons_of_mem _ hm⟩

lemma mem_removeReq {l : List (Nat × ReqKind)} {rid : Nat} {x : Nat × ReqKind}
    (h : x ∈ removeReq l rid) : x ∈ l := by
  induction l with
  | nil => simp [removeReq] at h
  | cons y ys ih =>
    obtain ⟨r, k'⟩ := y
    by_cases hr : r = rid
    · simp [removeReq, hr] at h
      exact List.mem_cons_of_mem _ h
    · simp [removeReq, hr] at h
      rcases h with h | h
      · simp [h]
      · exact List.mem_cons_of_mem _ (ih h)

lemma countRefresh_append (l₁ l₂ : List (Nat × ReqKind)) :
    countRefresh (l₁ ++ l₂) = countRefresh l₁ + countRefresh l₂ := by
  induction l₁ with
  | nil => simp [countRefresh]
  | cons x xs ih => simp [countRefresh, ih, Nat.add_assoc]

lemma countRefresh_remove {l : List (Nat × ReqKind)} {rid : Nat} {k : ReqKind}
    (h : lookupReq l rid = some k) :
    countRefresh l = countRefresh (removeReq l rid) + (if k.isRefreshExch then 1 else 0) := by
  induction l with
  | nil => simp [lookupReq] at h
  | cons y ys ih =>
    obtain ⟨r, k'⟩ := y
    by_cases hr : r = rid
    · simp [lookupReq, hr] at h
      subst h
      simp [removeReq, hr, countRefresh, Nat.add_comm]
    · simp [lookupReq, hr] at h
      simp [removeReq, hr, countRefresh, ih h, Nat.add_assoc]

lemma countRefresh_resolveSends (q : List Pending) : ∀ base,
    countRefresh (resolveSends base q) = 0 := by
  induction q with
  | nil => intro base; simp [resolveSends, countRefresh]
  | cons p ps ih => intro base; simp [resolveSends, countRefresh, ReqKind.isRefreshExch, ih]

lemma resolveSends_snd (q : List Pending) : ∀ base,
    (resolveSends base q).map Prod.snd = q.map fun p => ReqKind.caller p.caller p.cfg := by
  induction q with
  | nil => intro base; simp [resolveSends]
  | cons p ps ih => intro base; simp [resolveSends, ih]

lemma mem_resolveSends {q : List Pending} {x : Nat × ReqKind} : ∀ {base},
    x ∈ resolveSends base q → ∃ p ∈ q, x.2 = ReqKind.caller p.caller p.cfg := by
  induction q with
  | nil => intro base h; simp [resolveSends] at h
  | cons p ps ih =>
    intro base h
    simp [resolveSends] at h
    rcases h with h | h
    · exact ⟨p, by simp, by simp [h]⟩
    · obtain ⟨p', hp', he⟩ := ih h
      exact ⟨p', by simp [hp'], he⟩

lemma settleFlags_fst (q : List Pending) (b : Bool) :
    (settleFlags q b).map Prod.fst = q.map Pending.pid := by
  simp [settleFlags, List.map_map, Function.comp]

lemma pid_enqueue (q : List Pending) (st : List (Nat × Bool)) (n c : Nat) (cfg : Config)
    (hnd : (q.map Pending.pid ++ st.map Prod.fst).Nodup)
    (hlt : ∀ i ∈ q.map Pending.pid ++ st.map Prod.fst, i < n) :
    ((q ++ [(⟨n, c, cfg⟩ : Pending)]).map Pending.pid ++ st.map Prod.fst).Nodup ∧
    (∀ i ∈ (q ++ [(⟨n, c, cfg⟩ : Pending)]).map Pending.pid ++ st.map Prod.fst, i < n + 1) := by
  have hperm : List.Perm ((q ++ [(⟨n, c, cfg⟩ : Pending)]).map Pending.pid ++ st.map Prod.fst)
      (n :: (q.map Pending.pid ++ st.map Prod.fst)) := by
    rw [List.map_append, List.append_assoc]
    exact List.perm_middle
  have hnotmem : n ∉ q.map Pending.pid ++ st.map Prod.fst := by
    intro hmem
    exact absurd (hlt n hmem) (lt_irrefl n)
  constructor
  · exact hperm.symm.nodup (List.nodup_cons.mpr ⟨hnotmem, hnd⟩)
  · intro i hi
    have hi' : i ∈ n :: (q.map Pending.pid ++ st.map Prod.fst) := hperm.mem_iff.mp hi
    rcases List.mem_cons.mp hi' with hi'' | hi''
    · omega
    · exact Nat.lt_succ_of_lt (hlt i hi'')

lemma pid_flush (q : List Pending) (st : List (Nat × Bool)) (b : Bool)
    (hnd : (q.map Pending.pid ++ st.map Prod.fst).Nodup) :
    ((st ++ settleFlags q b).map Prod.fst).Nodup ∧
    (∀ i ∈ (st ++ settleFlags q b).map Prod.fst, i ∈ q.map Pending.pid ++ st.map Prod.fst) := by
  have hperm : List.Perm ((st ++ settleFlags q b).map Prod.fst)
      (q.map Pending.pid ++ st.map Prod.fst) := by
    rw [List.map_append, settleFlags_fst]
    exact List.perm_append_comm
  exact ⟨hperm.symm.nodup hnd, fun i hi => hperm.mem_iff.mp hi⟩

lemma gateInv_step (s : Sys) (ev : Event) (h : GateInv s) : GateInv (step s ev) := by
  obtain ⟨hf0, hf1, hurl, hmark, hqurl, hnd, hlt⟩ := h
  cases hl : lookupReq s.inFlight ev.rid with
  | none =>
    rw [step_none s ev hl]
    exact ⟨hf0, hf1, hurl, hmark, hqurl, hnd, hlt⟩
  | some k =>
    obtain ⟨rid0, hmem⟩ := lookupReq_mem hl
    cases k with
    | caller c cfg =>
      have hcu : urlHasRefresh cfg.url = false := hurl (rid0, ReqKind.caller c cfg) hmem
      have hcnt : countRefresh (removeReq s.inFlight ev.rid) = countRefresh s.inFlight := by
        have h2 := countRefresh_remove hl
        simp [ReqKind.isRefreshExch] at h2
        omega
      rw [step_callerEq s ev c cfg hl]
      cases hr : ev.resp with
      | ok p =>
        rw [handleCaller_ok]
        exact ⟨fun hx => ⟨hcnt.trans (hf0 hx).1, (hf0 hx).2⟩,
               fun hx => hcnt.trans (hf1 hx),
               fun x hx => hurl x (mem_removeReq hx),
               fun x hx => hmark x (mem_removeReq hx),
               hqurl, hnd, hlt⟩
      | err e =>
        by_cases h401 : is401 e = true
        · by_cases hret : cfg.retry = true
          · rw [handleCaller_pass _ _ _ _ (by simp [h401, hret])]
            exact ⟨fun hx => ⟨hcnt.trans (hf0 hx).1, (hf0 hx).2⟩,
                   fun hx => hcnt.trans (hf1 hx),
                   fun x hx => hurl x (mem_removeReq hx),
                   fun x hx => hmark x (mem_removeReq hx),
                   hqurl, hnd, hlt⟩
          · have hret' : cfg.retry = false := by
              cases hcr : cfg.retry
              · rfl
              · exact absurd hcr hret
            by_cases hflag : s.isRefreshing = true
            · rw [handleCaller_enqueue { s with inFlight := removeReq s.inFlight ev.rid }
                c cfg e h401 hret' hcu hflag]
              refine ⟨?_, ?_, ?_, ?_, ?_, ?_, ?_⟩
              · intro hx
                have hx' : s.isRefreshing = false := hx
                rw [hflag] at hx'
                exact absurd hx' (by decide)
              · exact fun _ => hcnt.trans (hf1 hflag)
              · exact fun x hx => hurl x (mem_removeReq hx)
              · exact fun x hx => hmark x (mem_removeReq hx)
              · intro p hp
                have hp' : p ∈ s.failedQueue ++ [(⟨s.nextId, c, cfg⟩ : Pending)] := hp
                rcases List.mem_append.mp hp' with hq | hq
                · exact hqurl p hq
                · rw [List.mem_singleton.mp hq]
                  exact hcu
              · exact (pid_enqueue s.failedQueue s.settled s.nextId c cfg hnd hlt).1
              · exact (pid_enqueue s.failedQueue s.settled s.nextId c cfg hnd hlt).2
            · have hflag' : s.isRefreshing = false := by
                cases hcf : s.isRefreshing
                · rfl
                · exact absurd hcf hflag
              rw [handleCaller_trigger { s with inFlight := removeReq s.inFlight ev.rid }
                c cfg e h401 hret' hcu hflag']
              refine ⟨?_, ?_, ?_, ?_, ?_, ?_, ?_⟩
              · intro hx
                exact absurd hx (by simp)
              · intro _
                show countRefresh (removeReq s.inFlight ev.rid ++
                  [(s.nextId, ReqKind.refresh c { cfg with retry := true })]) = 1
                rw [countRefresh_append, hcnt, (hf0 hflag').1]
                simp [countRefresh, ReqKind.isRefreshExch]
              · intro x hx
                have hx' : x ∈ removeReq s.inFlight ev.rid ++
                  [(s.nextId, ReqKind.refresh c { cfg with retry := true })] := hx
                rcases List.mem_append.mp hx' with hy | hy
                · exact hurl x (mem_removeReq hy)
                · rw [List.mem_singleton.mp hy]
                  exact hcu
              · intro x hx
                have hx' : x ∈ removeReq s.inFlight ev.rid ++
                  [(s.nextId, ReqKind.refresh c { cfg with retry := true })] := hx
                rcases List.mem_append.mp hx' with hy | hy
                · exact hmark x (mem_removeReq hy)
                · rw [List.mem_singleton.mp hy]
                  intro _
                  rfl
              · exact hqurl
              · exact hnd
              · exact fun i hi => Nat.lt_succ_of_lt (hlt i hi)
        · have h401' : (is401 e && !cfg.retry) = false := by
            simp only [Bool.not_eq_true] at h401
            simp [h401]
          rw [handleCaller_pass _ _ _ _ h401']
          exact ⟨fun hx => ⟨hcnt.trans (hf0 hx).1, (hf0 hx).2⟩,
                 fun hx => hcnt.trans (hf1 hx),
                 fun x hx => hurl x (mem_removeReq hx),
                 fun x hx => hmark x (mem_removeReq hx),
                 hqurl, hnd, hlt⟩
    | refresh c cfg =>
      have hflag : s.isRefreshing = true := by
        cases hcf : s.isRefreshing
        · have h0 := (hf0 hcf).1
          have h2 := countRefresh_remove hl
          simp [ReqKind.isRefreshExch] at h2
          omega
        · rfl
      have hcnt0 : countRefresh (removeReq s.inFlight ev.rid) = 0 := by
        have h2 := countRefresh_remove hl
        have h1 := hf1 hflag
        simp [ReqKind.isRefreshExch] at h2
        omega
      have hrcfg : urlHasRefresh cfg.url = false := by
        have := hurl (rid0, ReqKind.refresh c cfg) hmem
        simpa [ReqKind.cfg] using this
      rw [step_refreshEq s ev c cfg hl]
      cases hr : ev.resp with
      | ok p =>
        rw [handleRefresh_ok]
        refine ⟨?_, ?_, ?_, ?_, ?_, ?_, ?_⟩
        · intro _
          refine ⟨?_, rfl⟩
          show countRefresh (removeReq s.inFlight ev.rid ++
            resolveSends s.nextId s.failedQueue ++
            [(s.nextId + s.failedQueue.length, ReqKind.caller c cfg)]) = 0
          rw [countRefresh_append, countRefresh_append, hcnt0, countRefresh_resolveSends]
          simp [countRefresh, ReqKind.isRefreshExch]
        · intro hx
          exact absurd hx (by simp)
        · intro x hx
          have hx' : x ∈ removeReq s.inFlight ev.rid ++
            resolveSends s.nextId s.failedQueue ++
            [(s.nextId + s.failedQueue.length, ReqKind.caller c cfg)] := hx
          rcases List.mem_append.mp hx' with hy | hy
          · rcases List.mem_append.mp hy with hz | hz
            · exact hurl x (mem_removeReq hz)
            · obtain ⟨pq, hpq, hxe⟩ := mem_resolveSends hz
              rw [hxe]
              exact hqurl pq hpq
          · rw [List.mem_singleton.mp hy]
            exact hrcfg
        · intro x hx
          have hx' : x ∈ removeReq s.inFlight ev.rid ++
            resolveSends s.nextId s.failedQueue ++
            [(s.nextId + s.failedQueue.length, ReqKind.caller c cfg)] := hx
          rcases List.mem_append.mp hx' with hy | hy
          · rcases List.mem_append.mp hy with hz | hz
            · exact hmark x (mem_removeReq hz)
            · obtain ⟨pq, hpq, hxe⟩ := mem_resolveSends hz
              rw [hxe]
              intro hexch
              exact absurd hexch (by simp [ReqKind.isRefreshExch])
          · rw [List.mem_singleton.mp hy]
            intro hexch
            exact absurd hexch (by simp [ReqKind.isRefreshExch])
        · exact fun p hp => absurd hp (List.not_mem_nil p)
        · exact (pid_flush s.failedQueue s.settled true hnd).1
        · intro i hi
          have hm := (pid_flush s.failedQueue s.settled true hnd).2 i hi
          have hb := hlt i hm
          show i < s.nextId + s.failedQueue.length + 1
          omega
      | err e =>
        rw [handleRefresh_err]
        refine ⟨?_, ?_, ?_, ?_, ?_, ?_, ?_⟩
        · exact fun _ => ⟨hcnt0, rfl⟩
        · intro hx
          exact absurd hx (by simp)
        · exact fun x hx => hurl x (mem_removeReq hx)
        · exact fun x hx => hmark x (mem_removeReq hx)
        · exact fun p hp => absurd hp (List.not_mem_nil p)
        · exact (pid_flush s.failedQueue s.settled false hnd).1
        · intro i hi
          exact hlt i ((pid_flush s.failedQueue s.settled false hnd).2 i hi)

lemma gateInv_sendReq (s : Sys) (c : Nat) (cfg : Config)
    (hcfg : urlHasRefresh cfg.url = false) (h : GateInv s) : GateInv (sendReq s c cfg) := by
  obtain ⟨hf0, hf1, hurl, hmark, hqurl, hnd, hlt⟩ := h
  have hcnt : countRefresh (s.inFlight ++ [(s.nextId, ReqKind.caller c cfg)]) =
      countRefresh s.inFlight := by
    rw [countRefresh_append]
    simp [countRefresh, ReqKind.isRefreshExch]
  refine ⟨?_, ?_, ?_, ?_, ?_, ?_, ?_⟩
  · exact fun hx => ⟨hcnt.trans (hf0 hx).1, (hf0 hx).2⟩
  · exact fun hx => hcnt.trans (hf1 hx)
  · intro x hx
    have hx' : x ∈ s.inFlight ++ [(s.nextId, ReqKind.caller c cfg)] := hx
    rcases List.mem_append.mp hx' with hy | hy
    · exact hurl x hy
    · rw [List.mem_singleton.mp hy]
      exact hcfg
  · intro x hx
    have hx' : x ∈ s.inFlight ++ [(s.nextId, ReqKind.caller c cfg)] := hx
    rcases List.mem_append.mp hx' with hy | hy
    · exact hmark x hy
    · rw [List.mem_singleton.mp hy]
      intro hexch
      exact absurd hexch (by simp [ReqKind.isRefreshExch])
  · exact hqurl
  · exact hnd
  · exact fun i hi => Nat.lt_succ_of_lt (hlt i hi)

lemma gateInv_initSys (reqs : List (Nat × Config)) (h : GoodReqs reqs) :
    GateInv (initSys reqs) := by
  have hbase : GateInv ⟨false, [], [], [], [], [], 0, 0, 0⟩ := by
    refine ⟨?_, ?_, ?_, ?_, ?_, ?_, ?_⟩
    · intro _
      exact ⟨rfl, rfl⟩
    · intro hx
      exact absurd hx (by simp)
    · intro x hx
      exact absurd hx (List.not_mem_nil x)
    · intro x hx
      exact absurd hx (List.not_mem_nil x)
    · intro p hp
      exact absurd hp (List.not_mem_nil p)
    · exact List.nodup_nil
    · intro i hi
      exact absurd hi (List.not_mem_nil i)
  unfold initSys
  have hgen : ∀ (l : List (Nat × Config)) (s : Sys),
      (∀ rc ∈ l, urlHasRefresh rc.2.url = false) → GateInv s →
      GateInv (l.foldl (fun s rc => sendReq s rc.1 rc.2) s) := by
    intro l
    induction l with
    | nil => exact fun s _ hs => hs
    | cons rc rest ih =>
      intro s hgood hs
      exact ih (sendReq s rc.1 rc.2) (fun x hx => hgood x (List.mem_cons_of_mem _ hx))
        (gateInv_sendReq s rc.1 rc.2 (hgood rc (by simp)) hs)
  exact hgen reqs _ h hbase

lemma gateInv_run (s : Sys) (evs : List Event) (h : GateInv s) : GateInv (run s evs) := by
  induction evs generalizing s with
  | nil => exact h
  | cons ev rest ih => exact ih (step s ev) (gateInv_step s ev h)

lemma reachable_gateInv {s : Sys} (h : Reachable s) : GateInv s := by
  obtain ⟨reqs, evs, hgood, hs⟩ := h
  rw [hs]
  exact gateInv_run (initSys reqs) evs (gateInv_initSys reqs hgood)

lemma countRefresh_le_one {s : Sys} (h : GateInv s) : countRefresh s.inFlight ≤ 1 := by
  obtain ⟨hf0, hf1, _⟩ := h
  cases hx : s.isRefreshing
  · rw [(hf0 hx).1]
    omega
  · rw [hf1 hx]

lemma step_cases (s : Sys) (ev : Event) (hI : GateInv s) :
    step s ev = s ∨
    (∃ c cfg p, lookupReq s.inFlight ev.rid = some (ReqKind.caller c cfg) ∧
      ev.resp = Resp.ok p ∧
      step s ev = { s with inFlight := removeReq s.inFlight ev.rid,
                           outcomes := s.outcomes ++ [(c, Outcome.ok p)] }) ∨
    (∃ c cfg e, lookupReq s.inFlight ev.rid = some (ReqKind.caller c cfg) ∧
      ev.resp = Resp.err e ∧ (is401 e && !cfg.retry) = false ∧
      step s ev = { s with inFlight := removeReq s.inFlight ev.rid,
                           outcomes := s.outcomes ++ [(c, Outcome.fail e)] }) ∨
    (∃ c cfg e, lookupReq s.inFlight ev.rid = some (ReqKind.caller c cfg) ∧
      ev.resp = Resp.err e ∧ is401 e = true ∧ cfg.retry = false ∧ s.isRefreshing = true ∧
      step s ev = { s with inFlight := removeReq s.inFlight ev.rid,
                           failedQueue := s.failedQueue ++ [⟨s.nextId, c, cfg⟩],
                           nextId := s.nextId + 1 }) ∨
    (∃ c cfg e, lookupReq s.inFlight ev.rid = some (ReqKind.caller c cfg) ∧
      ev.resp = Resp.err e ∧ is401 e = true ∧ cfg.retry = false ∧ s.isRefreshing = false ∧
      step s ev = { s with isRefreshing := true
                           refreshesSent := s.refreshesSent + 1
                           inFlight := removeReq s.inFlight ev.rid ++
                             [(s.nextId, ReqKind.refresh c { cfg with retry := true })]
                           sentLog := s.sentLog ++
                             [(s.nextId, ReqKind.refresh c { cfg with retry := true })]
                           nextId := s.nextId + 1 }) ∨
    (∃ c cfg p, lookupReq s.inFlight ev.rid = some (ReqKind.refresh c cfg) ∧
      ev.resp = Resp.ok p ∧
      step s ev = { s with isRefreshing := false
                           failedQueue := []
                           settled := s.settled ++ settleFlags s.failedQueue true
                           inFlight := removeReq s.inFlight ev.rid ++
                             resolveSends s.nextId s.failedQueue ++
                             [(s.nextId + s.failedQueue.length, ReqKind.caller c cfg)]
                           sentLog := s.sentLog ++ resolveSends s.nextId s.failedQueue ++
                             [(s.nextId + s.failedQueue.length, ReqKind.caller c cfg)]
                           nextId := s.nextId + s.failedQueue.length + 1 }) ∨
    (∃ c cfg e, lookupReq s.inFlight ev.rid = some (ReqKind.refresh c cfg) ∧
      ev.resp = Resp.err e ∧
      step s ev = { s with isRefreshing := false
                           failedQueue := []
                           settled := s.settled ++ settleFlags s.failedQueue false
                           inFlight := removeReq s.inFlight ev.rid
                           outcomes := s.outcomes ++ rejectAll s.failedQueue e ++
                             [(c, Outcome.fail e)]
                           redirects := s.redirects + 1 + (if is401 e then 1 else 0) }) := by
  obtain ⟨hf0, hf1, hurl, hmark, hqurl, hnd, hlt⟩ := hI
  cases hl : lookupReq s.inFlight ev.rid with
  | none => exact Or.inl (step_none s ev hl)
  | some k =>
    obtain ⟨rid0, hmem⟩ := lookupReq_mem hl
    cases k with
    | caller c cfg =>
      have hcu : urlHasRefresh cfg.url = false := hurl (rid0, ReqKind.caller c cfg) hmem
      cases hr : ev.resp with
      | ok p =>
        refine Or.inr (Or.inl ⟨c, cfg, p, rfl, rfl, ?_⟩)
        rw [step_callerEq s ev c cfg hl, hr, handleCaller_ok]
      | err e =>
        by_cases h401 : is401 e = true
        · by_cases hret : cfg.retry = true
          · have hcond : (is401 e && !cfg.retry) = false := by simp [h401, hret]
            refine Or.inr (Or.inr (Or.inl ⟨c, cfg, e, rfl, rfl, hcond, ?_⟩))
            rw [step_callerEq s ev c cfg hl, hr, handleCaller_pass _ _ _ _ hcond]
          · have hret' : cfg.retry = false := by
              cases hcr : cfg.retry
              · rfl
              · exact absurd hcr hret
            by_cases hflag : s.isRefreshing = true
            · refine Or.inr (Or.inr (Or.inr (Or.inl ⟨c, cfg, e, rfl, rfl, h401, hret', hflag, ?_⟩)))
              rw [step_callerEq s ev c cfg hl, hr,
                handleCaller_enqueue { s with inFlight := removeReq s.inFlight ev.rid }
                  c cfg e h401 hret' hcu hflag]
            · have hflag' : s.isRefreshing = false := by
                cases hcf : s.isRefreshing
                · rfl
                · exact absurd hcf hflag
              refine Or.inr (Or.inr (Or.inr (Or.inr (Or.inl
                ⟨c, cfg, e, rfl, rfl, h401, hret', hflag', ?_⟩))))
              rw [step_callerEq s ev c cfg hl, hr,
                handleCaller_trigger { s with inFlight := removeReq s.inFlight ev.rid }
                  c cfg e h401 hret' hcu hflag']
        · have hcond : (is401 e && !cfg.retry) = false := by
            simp only [Bool.not_eq_true] at h401
            simp [h401]
          refine Or.inr (Or.inr (Or.inl ⟨c, cfg, e, rfl, rfl, hcond, ?_⟩))
          rw [step_callerEq s ev c cfg hl, hr, handleCaller_pass _ _ _ _ hcond]
    | refresh c cfg =>
      cases hr : ev.resp with
      | ok p =>
        refine Or.inr (Or.inr (Or.inr (Or.inr (Or.inr (Or.inl ⟨c, cfg, p, rfl, rfl, ?_⟩)))))
        rw [step_refreshEq s ev c cfg hl, hr, handleRefresh_ok]
      | err e =>
        refine Or.inr (Or.inr (Or.inr (Or.inr (Or.inr (Or.inr ⟨c, cfg, e, rfl, rfl, ?_⟩)))))
        rw [step_refreshEq s ev c cfg hl, hr, handleRefresh_err]

def cfgA : Config := ⟨"GET", "/users/me", "", [], false⟩

def cfgB : Config := ⟨"GET", "/expenses/", "", [], false⟩

def e401 : ErrInfo := ⟨some 401, 0⟩

def e422 : ErrInfo := ⟨some 422, 7⟩

/-- Two page-level requests, as in Scenario B of the spec (restricted to
two callers). -/
def demoReqs : List (Nat × Config) := [(1, cfgA), (2, cfgB)]

/-- State after the first request got a 401 and triggered the refresh:
the flag is up, the refresh exchange (id 2) and the second caller request
(id 1) are in flight. -/
def sTrig : Sys := run (initSys demoReqs) [⟨0, Resp.err e401⟩]

/-- State after the second request also got a 401 and was enqueued behind
the in-flight refresh. -/
def sQueued : Sys := run (initSys demoReqs) [⟨0, Resp.err e401⟩, ⟨1, Resp.err e401⟩]

lemma demoReqs_good : GoodReqs demoReqs := by
  unfold GoodReqs
  decide

lemma sTrig_reachable : Reachable sTrig :=
  ⟨demoReqs, [⟨0, Resp.err e401⟩], demoReqs_good, rfl⟩

lemma sQueued_reachable : Reachable sQueued :=
  ⟨demoReqs, [⟨0, Resp.err e401⟩, ⟨1, Resp.err e401⟩], demoReqs_good, rfl⟩

/-- C1: in every reachable state at most one refresh exchange is in flight;
a step in which a request observes a 401 while the refreshing flag is
already raised enqueues that request as a Pending Request and sends nothing
(in particular no second `POST /auth/refresh`); and the refresh counter
grows only in a step that atomically takes the flag from false to true, so
exactly one refresh exchange is sent per refresh cycle. -/
theorem spec_C1 (s : Sys) (hs : Reachable s) :
    countRefresh s.inFlight ≤ 1 ∧
    (∀ ev c cfg e, lookupReq s.inFlight ev.rid = some (ReqKind.caller c cfg) →
      ev.resp = Resp.err e → is401 e = true → cfg.retry = false → s.isRefreshing = true →
      (step s ev).failedQueue = s.failedQueue ++ [⟨s.nextId, c, cfg⟩] ∧
      (step s ev).refreshesSent = s.refreshesSent ∧
      (step s ev).sentLog = s.sentLog) ∧
    (∀ ev, (step s ev).refreshesSent ≠ s.refreshesSent →
      s.isRefreshing = false ∧ (step s ev).isRefreshing = true ∧
      (step s ev).refreshesSent = s.refreshesSent + 1) := by
  have hI := reachable_gateInv hs
  refine ⟨countRefresh_le_one hI, ?_, ?_⟩
  · intro ev c cfg e hl hr h401 hret hflag
    obtain ⟨rid0, hmem⟩ := lookupReq_mem hl
    have hcu : urlHasRefresh cfg.url = false := hI.2.2.1 (rid0, ReqKind.caller c cfg) hmem
    rw [step_callerEq s ev c cfg hl, hr,
      handleCaller_enqueue { s with inFlight := removeReq s.inFlight ev.rid }
        c cfg e h401 hret hcu hflag]
    exact ⟨rfl, rfl, rfl⟩
  · intro ev hne
    rcases step_cases s ev hI with h | h | h | h | h | h | h
    · rw [h] at hne
      exact absurd rfl hne
    · obtain ⟨c, cfg, p, _, _, hstep⟩ := h
      rw [hstep] at hne
      simp at hne
    · obtain ⟨c, cfg, e, _, _, _, hstep⟩ := h
      rw [hstep] at hne
      simp at hne
    · obtain ⟨c, cfg, e, _, _, _, _, _, hstep⟩ := h
      rw [hstep] at hne
      simp at hne
    · obtain ⟨c, cfg, e, _, _, _, _, hflag, hstep⟩ := h
      exact ⟨hflag, by rw [hstep], by rw [hstep]⟩
    · obtain ⟨c, cfg, p, _, _, hstep⟩ := h
      rw [hstep] at hne
      simp at hne
    · obtain ⟨c, cfg, e, _, _, hstep⟩ := h
      rw [hstep] at hne
      simp at hne

/-- Witness for C1 at a concrete reachable state: with the refresh for the
first caller in flight, the second caller's 401 is enqueued and sends
nothing. -/
theorem spec_C1_witness :
    countRefresh sTrig.inFlight ≤ 1 ∧
    ((step sTrig ⟨1, Resp.err e401⟩).failedQueue =
        sTrig.failedQueue ++ [⟨sTrig.nextId, 2, cfgB⟩] ∧
      (step sTrig ⟨1, Resp.err e401⟩).refreshesSent = sTrig.refreshesSent ∧
      (step sTrig ⟨1, Resp.err e401⟩).sentLog = sTrig.sentLog) :=
  ⟨(spec_C1 sTrig sTrig_reachable).1,
   (spec_C1 sTrig sTrig_reachable).2.1 ⟨1, Resp.err e401⟩ 2 cfgB e401
     (by decide) rfl (by decide) (by decide) (by decide)⟩

/-- C5: when the refresh exchange resolves, the queued promises are settled
in exactly the order of `failedQueue` (resolved on success, rejected on
failure), and enqueueing appends at the tail, so the release order is the
enqueue order. -/
theorem spec_C5 :
    (∀ s ev c cfg, lookupReq s.inFlight ev.rid = some (ReqKind.refresh c cfg) →
      (step s ev).settled = s.settled ++ settleFlags s.failedQueue ev.resp.isOk ∧
      settleFlags s.failedQueue ev.resp.isOk =
        s.failedQueue.map (fun p => (p.pid, ev.resp.isOk))) ∧
    (∀ s ev c cfg e, lookupReq s.inFlight ev.rid = some (ReqKind.caller c cfg) →
      ev.resp = Resp.err e → is401 e = true → cfg.retry = false →
      urlHasRefresh cfg.url = false → s.isRefreshing = true →
      (step s ev).failedQueue = s.failedQueue ++ [⟨s.nextId, c, cfg⟩]) := by
  constructor
  · intro s ev c cfg hl
    cases hr : ev.resp with
    | ok p =>
      rw [step_refreshEq s ev c cfg hl, hr, handleRefresh_ok]
      exact ⟨rfl, rfl⟩
    | err e =>
      rw [step_refreshEq s ev c cfg hl, hr, handleRefresh_err]
      exact ⟨rfl, rfl⟩
  · intro s ev c cfg e hl hr h401 hret hcu hflag
    rw [step_callerEq s ev c cfg hl, hr,
      handleCaller_enqueue { s with inFlight := removeReq s.inFlight ev.rid }
        c cfg e h401 hret hcu hflag]

/-- Witness for C5: the queued promise of the second caller settles exactly
when the in-flight refresh resolves, and the enqueue that created it
appended at the tail of the queue. -/
theorem spec_C5_witness :
    ((step sQueued ⟨2, Resp.ok 0⟩).settled =
        sQueued.settled ++ settleFlags sQueued.failedQueue true ∧
      settleFlags sQueued.failedQueue true =
        sQueued.failedQueue.map (fun p => (p.pid, true))) ∧
    (step sTrig ⟨1, Resp.err e401⟩).failedQueue =
      sTrig.failedQueue ++ [⟨sTrig.nextId, 2, cfgB⟩] :=
  ⟨spec_C5.1 sQueued ⟨2, Resp.ok 0⟩ 1 { cfgA with retry := true } (by decide),
   spec_C5.2 sTrig ⟨1, Resp.err e401⟩ 2 cfgB e401 (by decide) rfl (by decide)
     (by decide) (by decide) (by decide)⟩

/-- C6: lifecycle of the refreshing flag: whenever it is down the queue is
empty; it goes from false to true only in the step that issues a refresh
exchange; when the in-flight refresh exchange resolves (success or
failure), the flag is down, the queue is empty and every queued promise was
settled at that same step; and the flag goes from true to false only in the
step that consumes the refresh exchange's response. -/
theorem spec_C6 (s : Sys) (hs : Reachable s) :
    (s.isRefreshing = false → s.failedQueue = []) ∧
    (∀ ev, s.isRefreshing = false → (step s ev).isRefreshing = true →
      (step s ev).refreshesSent = s.refreshesSent + 1) ∧
    (∀ ev c cfg, lookupReq s.inFlight ev.rid = some (ReqKind.refresh c cfg) →
      s.isRefreshing = true ∧ (step s ev).isRefreshing = false ∧
      (step s ev).failedQueue = [] ∧
      (step s ev).settled = s.settled ++ settleFlags s.failedQueue ev.resp.isOk) ∧
    (∀ ev, s.isRefreshing = true → (step s ev).isRefreshing = false →
      ∃ c cfg, lookupReq s.inFlight ev.rid = some (ReqKind.refresh c cfg)) := by
  have hI := reachable_gateInv hs
  refine ⟨fun hx => (hI.1 hx).2, ?_, ?_, ?_⟩
  · intro ev hflag htrue
    rcases step_cases s ev hI with h | h | h | h | h | h | h
    · rw [h] at htrue
      exact absurd (hflag.symm.trans htrue) (by decide)
    · obtain ⟨c, cfg, p, _, _, hstep⟩ := h
      rw [hstep] at htrue
      simp at htrue
      exact absurd (hflag.symm.trans htrue) (by decide)
    · obtain ⟨c, cfg, e, _, _, _, hstep⟩ := h
      rw [hstep] at htrue
      simp at htrue
      exact absurd (hflag.symm.trans htrue) (by decide)
    · obtain ⟨c, cfg, e, _, _, _, _, hfl, hstep⟩ := h
      exact absurd (hflag.symm.trans hfl) (by decide)
    · obtain ⟨c, cfg, e, _, _, _, _, _, hstep⟩ := h
      rw [hstep]
    · obtain ⟨c, cfg, p, _, _, hstep⟩ := h
      rw [hstep] at htrue
      simp at htrue
    · obtain ⟨c, cfg, e, _, _, hstep⟩ := h
      rw [hstep] at htrue
      simp at htrue
  · intro ev c cfg hl
    have hflag : s.isRefreshing = true := by
      cases hx : s.isRefreshing
      · have h0 := (hI.1 hx).1
        have h2 := countRefresh_remove hl
        simp [ReqKind.isRefreshExch] at h2
        omega
      · rfl
    refine ⟨hflag, ?_⟩
    cases hr : ev.resp with
    | ok p =>
      rw [step_refreshEq s ev c cfg hl, hr, handleRefresh_ok]
      exact ⟨rfl, rfl, rfl⟩
    | err e =>
      rw [step_refreshEq s ev c cfg hl, hr, handleRefresh_err]
      exact ⟨rfl, rfl, rfl⟩
  · intro ev hflag hfalse
    rcases step_cases s ev hI with h | h | h | h | h | h | h
    · rw [h] at hfalse
      exact absurd (hflag.symm.trans hfalse) (by decide)
    · obtain ⟨c, cfg, p, _, _, hstep⟩ := h
      rw [hstep] at hfalse
      simp at hfalse
      exact absurd (hflag.symm.trans hfalse) (by decide)
    · obtain ⟨c, cfg, e, _, _, _, hstep⟩ := h
      rw [hstep] at hfalse
      simp at hfalse
      exact absurd (hflag.symm.trans hfalse) (by decide)
    · obtain ⟨c, cfg, e, _, _, _, _, _, hstep⟩ := h
      rw [hstep] at hfalse
      simp at hfalse
      exact absurd (hflag.symm.trans hfalse) (by decide)
    · obtain ⟨c, cfg, e, _, _, _, _, hfl, _⟩ := h
      exact absurd (hflag.symm.trans hfl) (by decide)
    · obtain ⟨c, cfg, p, hl, _, _⟩ := h
      exact ⟨c, cfg, hl⟩
    · obtain ⟨c, cfg, e, hl, _, _⟩ := h
      exact ⟨c, cfg, hl⟩

/-- Witness for C6 at concrete reachable states: in the initial state the
flag is down and the queue empty; and when the in-flight refresh of
`sQueued` resolves, the flag goes down and the queued promise settles in
that same step. -/
theorem spec_C6_witness :
    (initSys demoReqs).failedQueue = [] ∧
    (sQueued.isRefreshing = true ∧
      (step sQueued ⟨2, Resp.ok 0⟩).isRefreshing = false ∧
      (step sQueued ⟨2, Resp.ok 0⟩).failedQueue = [] ∧
      (step sQueued ⟨2, Resp.ok 0⟩).settled =
        sQueued.settled ++ settleFlags sQueued.failedQueue true) :=
  ⟨(spec_C6 (initSys demoReqs) ⟨demoReqs, [], demoReqs_good, rfl⟩).1 (by decide),
   (spec_C6 sQueued sQueued_reachable).2.2.1 ⟨2, Resp.ok 0⟩ 1
     { cfgA with retry := true } (by decide)⟩

/-- C7: a request failing with anything other than a 401 (another HTTP
status, or a network-level error with no response) is rejected back to its
caller with the very same error object, and the step triggers no refresh,
enqueues nothing, and touches neither the flag nor the redirect counter. -/
theorem spec_C7 (s : Sys) (ev : Event) (c : Nat) (cfg : Config) (e : ErrInfo)
    (hl : lookupReq s.inFlight ev.rid = some (ReqKind.caller c cfg))
    (hr : ev.resp = Resp.err e) (hna : is401 e = false) :
    (step s ev).outcomes = s.outcomes ++ [(c, Outcome.fail e)] ∧
    (step s ev).refreshesSent = s.refreshesSent ∧
    (step s ev).failedQueue = s.failedQueue ∧
    (step s ev).isRefreshing = s.isRefreshing ∧
    (step s ev).redirects = s.redirects ∧
    (step s ev).settled = s.settled ∧
    (step s ev).sentLog = s.sentLog := by
  have hcond : (is401 e && !cfg.retry) = false := by simp [hna]
  rw [step_callerEq s ev c cfg hl, hr, handleCaller_pass _ _ _ _ hcond]
  exact ⟨rfl, rfl, rfl, rfl, rfl, rfl, rfl⟩

/-- Witness for C7: a 422 validation failure of the second caller while a
refresh is in flight passes straight through. -/
theorem spec_C7_witness :
    (step sTrig ⟨1, Resp.err e422⟩).outcomes =
      sTrig.outcomes ++ [(2, Outcome.fail e422)] ∧
    (step sTrig ⟨1, Resp.err e422⟩).refreshesSent = sTrig.refreshesSent ∧
    (step sTrig ⟨1, Resp.err e422⟩).failedQueue = sTrig.failedQueue ∧
    (step sTrig ⟨1, Resp.err e422⟩).isRefreshing = sTrig.isRefreshing ∧
    (step sTrig ⟨1, Resp.err e422⟩).redirects = sTrig.redirects ∧
    (step sTrig ⟨1, Resp.err e422⟩).settled = sTrig.settled ∧
    (step sTrig ⟨1, Resp.err e422⟩).sentLog = sTrig.sentLog :=
  spec_C7 sTrig ⟨1, Resp.err e422⟩ 2 cfgB e422 (by decide) rfl (by decide)

/-- C8: the check of the refreshing flag (client.js line 42) and the
mutation that raises it (line 55) lie in the same synchronous segment of
the handler — there is no `await` between them — so they happen inside one
atomic `step` of the interleaving model: a step whose handler observes the
flag down has already raised it (and issued the refresh) by the time any
other handler can run. -/
theorem spec_C8 (s : Sys) (ev : Event) (c : Nat) (cfg : Config) (e : ErrInfo)
    (hl : lookupReq s.inFlight ev.rid = some (ReqKind.caller c cfg))
    (hr : ev.resp = Resp.err e) (h401 : is401 e = true) (hret : cfg.retry = false)
    (hcu : urlHasRefresh cfg.url = false) (hflag : s.isRefreshing = false) :
    (step s ev).isRefreshing = true ∧
    (step s ev).refreshesSent = s.refreshesSent + 1 ∧
    (step s ev).inFlight = removeReq s.inFlight ev.rid ++
      [(s.nextId, ReqKind.refresh c { cfg with retry := true })] := by
  rw [step_callerEq s ev c cfg hl, hr,
    handleCaller_trigger { s with inFlight := removeReq s.inFlight ev.rid }
      c cfg e h401 hret hcu hflag]
  exact ⟨rfl, rfl, rfl⟩

/-- Witness for C8: the very first 401 observes the flag down and raises it
in the same step, issuing the refresh exchange. -/
theorem spec_C8_witness :
    (step (initSys demoReqs) ⟨0, Resp.err e401⟩).isRefreshing = true ∧
    (step (initSys demoReqs) ⟨0, Resp.err e401⟩).refreshesSent =
      (initSys demoReqs).refreshesSent + 1 ∧
    (step (initSys demoReqs) ⟨0, Resp.err e401⟩).inFlight =
      removeReq (initSys demoReqs).inFlight 0 ++
      [((initSys demoReqs).nextId, ReqKind.refresh 1 { cfgA with retry := true })] :=
  spec_C8 (initSys demoReqs) ⟨0, Resp.err e401⟩ 1 cfgA e401 (by decide) rfl
    (by decide) (by decide) (by decide) (by decide)

/-- C4: when the refresh exchange succeeds, that very step re-issues every
Pending Request (with its original caller and config) plus the triggering
request; a replayed caller request's success is delivered to its original
caller; and no step that is not a successful refresh resolution sends any
caller request — so no Pending Request is replayed before the refresh call
has fully resolved. -/
theorem spec_C4 (s : Sys) (hs : Reachable s) :
    (∀ ev c cfg p, lookupReq s.inFlight ev.rid = some (ReqKind.refresh c cfg) →
      ev.resp = Resp.ok p →
      (step s ev).sentLog = s.sentLog ++ resolveSends s.nextId s.failedQueue ++
        [(s.nextId + s.failedQueue.length, ReqKind.caller c cfg)] ∧
      (resolveSends s.nextId s.failedQueue).map Prod.snd =
        s.failedQueue.map (fun q => ReqKind.caller q.caller q.cfg)) ∧
    (∀ ev c cfg p, lookupReq s.inFlight ev.rid = some (ReqKind.caller c cfg) →
      ev.resp = Resp.ok p →
      (step s ev).outcomes = s.outcomes ++ [(c, Outcome.ok p)]) ∧
    (∀ ev, (∀ c cfg p, ¬(lookupReq s.inFlight ev.rid = some (ReqKind.refresh c cfg) ∧
        ev.resp = Resp.ok p)) →
      (step s ev).sentLog = s.sentLog ∨
      ∃ (c : Nat) (cfg : Config), (step s ev).sentLog = s.sentLog ++
        [(s.nextId, ReqKind.refresh c { cfg with retry := true })]) := by
  have hI := reachable_gateInv hs
  refine ⟨?_, ?_, ?_⟩
  · intro ev c cfg p hl hr
    rw [step_refreshEq s ev c cfg hl, hr, handleRefresh_ok]
    exact ⟨rfl, resolveSends_snd s.failedQueue s.nextId⟩
  · intro ev c cfg p hl hr
    rw [step_callerEq s ev c cfg hl, hr, handleCaller_ok]
  · intro ev hna
    rcases step_cases s ev hI with h | h | h | h | h | h | h
    · rw [h]
      exact Or.inl rfl
    · obtain ⟨c, cfg, p, _, _, hstep⟩ := h
      rw [hstep]
      exact Or.inl rfl
    · obtain ⟨c, cfg, e, _, _, _, hstep⟩ := h
      rw [hstep]
      exact Or.inl rfl
    · obtain ⟨c, cfg, e, _, _, _, _, _, hstep⟩ := h
      rw [hstep]
      exact Or.inl rfl
    · obtain ⟨c, cfg, e, _, _, _, _, _, hstep⟩ := h
      rw [hstep]
      exact Or.inr ⟨c, cfg, rfl⟩
    · obtain ⟨c, cfg, p, hl, hr, _⟩ := h
      exact absurd ⟨hl, hr⟩ (hna c cfg p)
    · obtain ⟨c, cfg, e, _, _, hstep⟩ := h
      rw [hstep]
      exact Or.inl rfl

/-- Witness for C4: the successful refresh of `sQueued` replays the queued
request of caller 2 and the triggering request of caller 1 in that very
step; before it, a non-refresh event sends nothing. -/
theorem spec_C4_witness :
    ((step sQueued ⟨2, Resp.ok 0⟩).sentLog =
        sQueued.sentLog ++ resolveSends sQueued.nextId sQueued.failedQueue ++
        [(sQueued.nextId + sQueued.failedQueue.length,
          ReqKind.caller 1 { cfgA with retry := true })] ∧
      (resolveSends sQueued.nextId sQueued.failedQueue).map Prod.snd =
        sQueued.failedQueue.map (fun q => ReqKind.caller q.caller q.cfg)) ∧
    ((step sTrig ⟨1, Resp.err e401⟩).sentLog = sTrig.sentLog ∨
      ∃ (c : Nat) (cfg : Config), (step sTrig ⟨1, Resp.err e401⟩).sentLog = sTrig.sentLog ++
        [(sTrig.nextId, ReqKind.refresh c { cfg with retry := true })]) :=
  ⟨(spec_C4 sQueued sQueued_reachable).1 ⟨2, Resp.ok 0⟩ 1
     { cfgA with retry := true } 0 (by decide) rfl,
   (spec_C4 sTrig sTrig_reachable).2.2 ⟨1, Resp.err e401⟩
     (fun c cfg p h => Resp.noConfusion h.2)⟩

/-- C9: replays re-issue the original request description verbatim.  The
triggering request is stored for replay with only its retry marker changed
(method, url, body and headers untouched); on refresh success every Pending
Request is re-issued with its queued config unchanged; and a successful
response is delivered to the caller independently of the config it was
carried under, so the caller cannot tell a replayed success from a direct
one. -/
theorem spec_C9 :
    (∀ s ev c cfg e, lookupReq s.inFlight ev.rid = some (ReqKind.caller c cfg) →
      ev.resp = Resp.err e → is401 e = true → cfg.retry = false →
      urlHasRefresh cfg.url = false → s.isRefreshing = false →
      (step s ev).inFlight = removeReq s.inFlight ev.rid ++
        [(s.nextId, ReqKind.refresh c { cfg with retry := true })] ∧
      ({ cfg with retry := true } : Config).method = cfg.method ∧
      ({ cfg with retry := true } : Config).url = cfg.url ∧
      ({ cfg with retry := true } : Config).body = cfg.body ∧
      ({ cfg with retry := true } : Config).headers = cfg.headers) ∧
    (∀ s ev c cfg p, lookupReq s.inFlight ev.rid = some (ReqKind.refresh c cfg) →
      ev.resp = Resp.ok p →
      (resolveSends s.nextId s.failedQueue).map Prod.snd =
        s.failedQueue.map (fun q => ReqKind.caller q.caller q.cfg) ∧
      (step s ev).inFlight = removeReq s.inFlight ev.rid ++
        resolveSends s.nextId s.failedQueue ++
        [(s.nextId + s.failedQueue.length, ReqKind.caller c cfg)]) ∧
    (∀ s ev c cfg p, lookupReq s.inFlight ev.rid = some (ReqKind.caller c cfg) →
      ev.resp = Resp.ok p →
      (step s ev).outcomes = s.outcomes ++ [(c, Outcome.ok p)]) := by
  refine ⟨?_, ?_, ?_⟩
  · intro s ev c cfg e hl hr h401 hret hcu hflag
    rw [step_callerEq s ev c cfg hl, hr,
      handleCaller_trigger { s with inFlight := removeReq s.inFlight ev.rid }
        c cfg e h401 hret hcu hflag]
    exact ⟨rfl, rfl, rfl, rfl, rfl⟩
  · intro s ev c cfg p hl hr
    rw [step_refreshEq s ev c cfg hl, hr, handleRefresh_ok]
    exact ⟨resolveSends_snd s.failedQueue s.nextId, rfl⟩
  · intro s ev c cfg p hl hr
    rw [step_callerEq s ev c cfg hl, hr, handleCaller_ok]

/-- Witness for C9: the first 401 stores the triggering request for replay
with method, url, body and headers unchanged; the successful refresh of
`sQueued` re-issues the queued config verbatim; and the replayed success is
delivered to caller 2 as an ordinary success. -/
theorem spec_C9_witness :
    ((step (initSys demoReqs) ⟨0, Resp.err e401⟩).inFlight =
        removeReq (initSys demoReqs).inFlight 0 ++
        [((initSys demoReqs).nextId, ReqKind.refresh 1 { cfgA with retry := true })] ∧
      ({ cfgA with retry := true } : Config).method = cfgA.method ∧
      ({ cfgA with retry := true } : Config).url = cfgA.url ∧
      ({ cfgA with retry := true } : Config).body = cfgA.body ∧
      ({ cfgA with retry := true } : Config).headers = cfgA.headers) ∧
    ((resolveSends sQueued.nextId sQueued.failedQueue).map Prod.snd =
        sQueued.failedQueue.map (fun q => ReqKind.caller q.caller q.cfg) ∧
      (step sQueued ⟨2, Resp.ok 0⟩).inFlight =
        removeReq sQueued.inFlight 2 ++ resolveSends sQueued.nextId sQueued.failedQueue ++
        [(sQueued.nextId + sQueued.failedQueue.length,
          ReqKind.caller 1 { cfgA with retry := true })]) ∧
    (step (run sQueued [⟨2, Resp.ok 0⟩]) ⟨4, Resp.ok 9⟩).outcomes =
      (run sQueued [⟨2, Resp.ok 0⟩]).outcomes ++ [(2, Outcome.ok 9)] :=
  ⟨spec_C9.1 (initSys demoReqs) ⟨0, Resp.err e401⟩ 1 cfgA e401 (by decide) rfl
     (by decide) (by decide) (by decide) (by decide),
   spec_C9.2.1 sQueued ⟨2, Resp.ok 0⟩ 1 { cfgA with retry := true } 0 (by decide) rfl,
   spec_C9.2.2 (run sQueued [⟨2, Resp.ok 0⟩]) ⟨4, Resp.ok 9⟩ 2 cfgB 9 (by decide) rfl⟩

/-- C10: every Pending Request's promise is settled at most once: the
settlement log of any reachable state carries pairwise-distinct promise
identifiers; and on the path where the refresh call fails with a 401 — the
path on which `processQueue` is invoked twice, once in the refresh-url
branch and once in the enclosing catch — the step settles the queue exactly
once, because the second invocation iterates the already-emptied queue. -/
theorem spec_C10 (s : Sys) (hs : Reachable s) :
    (s.settled.map Prod.fst).Nodup ∧
    (∀ ev c cfg e, lookupReq s.inFlight ev.rid = some (ReqKind.refresh c cfg) →
      ev.resp = Resp.err e → is401 e = true →
      (step s ev).settled = s.settled ++ settleFlags s.failedQueue false ∧
      (step s ev).failedQueue = []) := by
  have hI := reachable_gateInv hs
  constructor
  · have hnd : (pidsOf s).Nodup := hI.2.2.2.2.2.1
    exact ((List.nodup_append.mp hnd).2).1
  · intro ev c cfg e hl hr _
    rw [step_refreshEq s ev c cfg hl, hr, handleRefresh_err]
    exact ⟨rfl, rfl⟩

/-- Witness for C10: in `sQueued` the settlement log identifiers are
distinct, and the refresh failing with a 401 settles the queued promise of
caller 2 exactly once. -/
theorem spec_C10_witness :
    (sQueued.settled.map Prod.fst).Nodup ∧
    ((step sQueued ⟨2, Resp.err e401⟩).settled =
        sQueued.settled ++ settleFlags sQueued.failedQueue false ∧
      (step sQueued ⟨2, Resp.err e401⟩).failedQueue = []) :=
  ⟨(spec_C10 sQueued sQueued_reachable).1,
   (spec_C10 sQueued sQueued_reachable).2 ⟨2, Resp.err e401⟩ 1
     { cfgA with retry := true } e401 (by decide) rfl (by decide)⟩

/-- Execution refuting C2 as stated: both callers get a 401, caller 2 is
enqueued, the refresh succeeds, and the replay of caller 2's Pending
Request receives a 401 again. -/
def sC2 : Sys := run (initSys demoReqs)
  [⟨0, Resp.err e401⟩, ⟨1, Resp.err e401⟩, ⟨2, Resp.ok 0⟩, ⟨4, Resp.err e401⟩]

/-- Counterexample to C2: in `sC2` the Pending Request of caller 2 was
replayed with its retry marker still unset (fourth sent request), and when
that replay received a 401 again, a second refresh cycle was entered on its
behalf (a second refresh exchange, for caller 2, was sent — refreshesSent
is 2) and no failure was surfaced to caller 2 (outcomes is empty).  This
contradicts the claim that such a failure is surfaced and that no second
refresh cycle is entered. -/
theorem spec_C2_cex :
    sC2.sentLog.map Prod.snd =
      [ReqKind.caller 1 cfgA, ReqKind.caller 2 cfgB,
       ReqKind.refresh 1 { cfgA with retry := true }, ReqKind.caller 2 cfgB,
       ReqKind.caller 1 { cfgA with retry := true },
       ReqKind.refresh 2 { cfgB with retry := true }] ∧
    sC2.refreshesSent = 2 ∧
    sC2.outcomes = [] := by
  decide

/-- C2 (amended): only the request that triggered the refresh carries the
retry marker.  A replay carrying the marker that receives a 401 again has
the failure surfaced to its caller and enters no second refresh cycle; and
in every reachable state the stored trigger config is marked.  A Pending
Request released from the queue is replayed without the marker, so its
second 401 re-enters the refresh cycle instead of being surfaced (see the
counterexample). -/
theorem spec_C2_amended :
    (∀ s ev c cfg e, lookupReq s.inFlight ev.rid = some (ReqKind.caller c cfg) →
      ev.resp = Resp.err e → is401 e = true → cfg.retry = true →
      (step s ev).outcomes = s.outcomes ++ [(c, Outcome.fail e)] ∧
      (step s ev).refreshesSent = s.refreshesSent ∧
      (step s ev).failedQueue = s.failedQueue ∧
      (step s ev).sentLog = s.sentLog) ∧
    (∀ s, Reachable s → ∀ x ∈ s.inFlight, x.2.isRefreshExch = true →
      x.2.cfg.retry = true) := by
  constructor
  · intro s ev c cfg e hl hr h401 hret
    have hcond : (is401 e && !cfg.retry) = false := by simp [hret]
    rw [step_callerEq s ev c cfg hl, hr, handleCaller_pass _ _ _ _ hcond]
    exact ⟨rfl, rfl, rfl, rfl⟩
  · intro s hs
    exact (reachable_gateInv hs).2.2.2.1

/-- Witness for the amended C2: the triggering request of caller 1,
replayed with its retry marker after a successful refresh, gets a 401 again
and the failure is surfaced with no second refresh; and the refresh
exchange in flight in `sTrig` carries a marked trigger config. -/
theorem spec_C2_amended_witness :
    ((step (run (initSys demoReqs) [⟨0, Resp.err e401⟩, ⟨2, Resp.ok 0⟩])
        ⟨3, Resp.err e401⟩).outcomes =
      (run (initSys demoReqs) [⟨0, Resp.err e401⟩, ⟨2, Resp.ok 0⟩]).outcomes ++
        [(1, Outcome.fail e401)] ∧
      (step (run (initSys demoReqs) [⟨0, Resp.err e401⟩, ⟨2, Resp.ok 0⟩])
        ⟨3, Resp.err e401⟩).refreshesSent =
      (run (initSys demoReqs) [⟨0, Resp.err e401⟩, ⟨2, Resp.ok 0⟩]).refreshesSent ∧
      (step (run (initSys demoReqs) [⟨0, Resp.err e401⟩, ⟨2, Resp.ok 0⟩])
        ⟨3, Resp.err e401⟩).failedQueue =
      (run (initSys demoReqs) [⟨0, Resp.err e401⟩, ⟨2, Resp.ok 0⟩]).failedQueue ∧
      (step (run (initSys demoReqs) [⟨0, Resp.err e401⟩, ⟨2, Resp.ok 0⟩])
        ⟨3, Resp.err e401⟩).sentLog =
      (run (initSys demoReqs) [⟨0, Resp.err e401⟩, ⟨2, Resp.ok 0⟩]).sentLog) ∧
    (ReqKind.refresh 1 { cfgA with retry := true }).cfg.retry = true :=
  ⟨spec_C2_amended.1 (run (initSys demoReqs) [⟨0, Resp.err e401⟩, ⟨2, Resp.ok 0⟩])
     ⟨3, Resp.err e401⟩ 1 { cfgA with retry := true } e401 (by decide) rfl
     (by decide) (by decide),
   spec_C2_amended.2 sTrig sTrig_reachable
     (2, ReqKind.refresh 1 { cfgA with retry := true }) (by decide) (by decide)⟩

/-- Execution refuting C3 as stated: caller 1 triggers the refresh, caller
2 is enqueued, and the refresh exchange itself fails with a 401. -/
def sC3 : Sys := run (initSys demoReqs)
  [⟨0, Resp.err e401⟩, ⟨1, Resp.err e401⟩, ⟨2, Resp.err e401⟩]

/-- Counterexample to C3: when the refresh exchange fails with a 401, the
re-login signal (`window.location.href = '/auth/sign-in'`) is emitted
twice — once at client.js line 38 in the refresh request's own interceptor
invocation and once at line 67 in the enclosing catch — not exactly once as
claimed.  (All queued callers do receive the failure.) -/
theorem spec_C3_cex :
    sC3.redirects = 2 ∧ sC3.redirects ≠ 1 ∧
    sC3.outcomes = [(2, Outcome.fail e401), (1, Outcome.fail e401)] ∧
    sC3.failedQueue = [] := by
  decide

/-- C3 (amended): if the refresh exchange fails, every queued caller's
promise is rejected with the failure and the triggering caller receives it
too; the re-login signal is emitted exactly once when the refresh fails
with a non-401 error and exactly twice when it fails with a 401, in both
cases independently of the queue size. -/
theorem spec_C3_amended (s : Sys) (ev : Event) (c : Nat) (cfg : Config) (e : ErrInfo)
    (hl : lookupReq s.inFlight ev.rid = some (ReqKind.refresh c cfg))
    (hr : ev.resp = Resp.err e) :
    (step s ev).outcomes = s.outcomes ++ rejectAll s.failedQueue e ++
      [(c, Outcome.fail e)] ∧
    rejectAll s.failedQueue e = s.failedQueue.map (fun p => (p.caller, Outcome.fail e)) ∧
    (step s ev).redirects = s.redirects + (if is401 e = true then 2 else 1) ∧
    (step s ev).isRefreshing = false ∧
    (step s ev).failedQueue = [] := by
  rw [step_refreshEq s ev c cfg hl, hr, handleRefresh_err]
  refine ⟨rfl, rfl, ?_, rfl, rfl⟩
  show s.redirects + 1 + (if is401 e = true then 1 else 0) =
    s.redirects + (if is401 e = true then 2 else 1)
  by_cases h : is401 e = true <;> simp [h]

/-- Witness for the amended C3: the refresh of `sQueued` fails with a 401;
the queued caller 2 and the triggering caller 1 receive the failure and the
redirect counter grows by exactly two. -/
theorem spec_C3_amended_witness :
    (step sQueued ⟨2, Resp.err e401⟩).outcomes =
      sQueued.outcomes ++ rejectAll sQueued.failedQueue e401 ++
        [(1, Outcome.fail e401)] ∧
    rejectAll sQueued.failedQueue e401 =
      sQueued.failedQueue.map (fun p => (p.caller, Outcome.fail e401)) ∧
    (step sQueued ⟨2, Resp.err e401⟩).redirects =
      sQueued.redirects + (if is401 e401 = true then 2 else 1) ∧
    (step sQueued ⟨2, Resp.err e401⟩).isRefreshing = false ∧
    (step sQueued ⟨2, Resp.err e401⟩).failedQueue = [] :=
  spec_C3_amended sQueued ⟨2, Resp.err e401⟩ 1 { cfgA with retry := true } e401
    (by decide) rfl
